import Mathlib

/-!
Shallow embedding of `collect_image_listing.py` (repository
`fotosaves-NT`, file `src/public/images/Aves/Gruiformes/collect_image_listing.py`).

The script scans `Fotos_*.html` gallery pages in the current directory,
classifies HTML tables (big 800px photo frames, `ffn.gif` thumbnail cells,
stage-label headers, conservation-status tables), extracts one record per
image and writes a single spreadsheet.

Modelling conventions:
* HTML documents are modelled by the `Node` tree BeautifulSoup would build;
  a document (`soup`) is its list of top-level nodes.
* Python strings are `String`; `str.lower` and `re.IGNORECASE` are modelled
  with `Char.toLower` (ASCII case folding), `\s`, `\w`, `\d` with the ASCII
  classes Lean provides.
* The regular expressions of `THREAT_VARIANTS` are embedded as `RE` values
  interpreted by an executable matcher (`re_search`); every pattern in the
  source has the shape `\b core \b`, the `\b` anchors are handled by the
  search loop.
* File I/O is modelled by the outcome values of the reads (`ReadRes`), and
  the pandas/openpyxl spreadsheet calls by an explicit cell grid.
All definitions are executable and structurally recursive so that concrete
runs reduce inside the kernel.
-/

namespace CollectImageListing

/-! ### Character and string helpers -/

/-- Python word characters (`\w`), ASCII: letters, digits and underscore. -/
def isWordChar (c : Char) : Bool := c.isAlphanum || c = '_'

/-- `leadMatches p l` is true when `p` is an initial segment of `l`. -/
def leadMatches : List Char → List Char → Bool
  | [], _ => true
  | _ :: _, [] => false
  | p :: ps, c :: cs => p = c && leadMatches ps cs

/-- `listContainsSub needle hay`: Python `needle in hay` on strings. -/
def listContainsSub (needle : List Char) : List Char → Bool
  | [] => needle.isEmpty
  | c :: cs => leadMatches needle (c :: cs) || listContainsSub needle cs

/-- Python `needle in hay` for strings. -/
def strContains (hay needle : String) : Bool :=
  listContainsSub needle.toList hay.toList

/-- `hay.endswith(suffix)` via reversed prefix matching. -/
def listEndsWith (hay suffix : List Char) : Bool :=
  leadMatches suffix.reverse hay.reverse

/-- `endswith_jpg` (line 88): `bool(value) and value.endswith(".jpg")`. -/
def endswith_jpg : Option String → Bool
  | none => false
  | some v => !v.toList.isEmpty && listEndsWith v.toList ".jpg".toList

/-- Maximal whitespace-free words of a character list (`acc` holds the
current word reversed). -/
def wordsAux : List Char → List Char → List (List Char)
  | [], acc => if acc.isEmpty then [] else [acc.reverse]
  | c :: cs, acc =>
    if c.isWhitespace then
      if acc.isEmpty then wordsAux cs [] else acc.reverse :: wordsAux cs []
    else wordsAux cs (c :: acc)

/-- Join words with single spaces. -/
def joinSp : List (List Char) → List Char
  | [] => []
  | [w] => w
  | w :: ws => w ++ ' ' :: joinSp ws

/-- `compact_text` (line 76): `re.sub(r"\s+", " ", text).strip()`; equivalently
the whitespace-separated words joined by single spaces. -/
def compact_text (s : String) : String :=
  (joinSp (wordsAux s.toList [])).asString

/-- Strip whitespace from both ends (Python `str.strip()`). -/
def trimList (cs : List Char) : List Char :=
  ((cs.dropWhile Char.isWhitespace).reverse.dropWhile Char.isWhitespace).reverse

/-- Python `str.lower()` / case folding used by `re.IGNORECASE` (ASCII). -/
def lowerChars (s : String) : List Char := s.toList.map Char.toLower

/-- Decimal digit run value, `none` when empty or not all digits. -/
def digitsVal? (ds : List Char) : Option Nat :=
  if !ds.isEmpty && ds.all Char.isDigit then
    some (ds.foldl (fun a c => a * 10 + (c.toNat - 48)) 0)
  else none

/-- Python `int(s)` on attribute strings: optional surrounding whitespace,
optional sign, at least one ASCII digit; `none` models `ValueError`. -/
def py_int? (s : String) : Option Int :=
  match trimList s.toList with
  | '-' :: ds => (digitsVal? ds).map (fun n => -(n : Int))
  | '+' :: ds => (digitsVal? ds).map (fun n => (n : Int))
  | ds => (digitsVal? ds).map (fun n => (n : Int))

/-- Decimal rendering of a `Nat` (fuel-based, structural). -/
def natDigitsAux : Nat → Nat → List Char
  | 0, _ => []
  | fuel + 1, n =>
    if n = 0 then [] else natDigitsAux fuel (n / 10) ++ [Char.ofNat (48 + n % 10)]

/-- Decimal rendering of a `Nat` as used by the f-string prints. -/
def natToStr (n : Nat) : String :=
  if n = 0 then "0" else (natDigitsAux (n + 1) n).asString

/-! ### The HTML node model -/

/-- A parsed HTML node as BeautifulSoup exposes it: a `NavigableString` or a
`Tag` with element name, attributes and children in document order. -/
inductive Node where
  | text : String → Node
  | tag : String → List (String × String) → List Node → Node

mutual

/-- Boolean equality on nodes. -/
def Node.beq : Node → Node → Bool
  | .text s, .text t => s == t
  | .tag n a c, .tag n' a' c' => n == n' && a == a' && nodeListBeq c c'
  | .text _, .tag _ _ _ => false
  | .tag _ _ _, .text _ => false

/-- Boolean equality on node lists. -/
def nodeListBeq : List Node → List Node → Bool
  | [], [] => true
  | x :: xs, y :: ys => Node.beq x y && nodeListBeq xs ys
  | [], _ :: _ => false
  | _ :: _, [] => false

end

mutual

theorem Node.beq_iff : ∀ x y : Node, Node.beq x y = true ↔ x = y
  | .text s, .text t => by simp [Node.beq]
  | .tag n a c, .tag n' a' c' => by
    simp [Node.beq, nodeListBeq_iff c c', Bool.and_assoc, and_assoc]
  | .text _, .tag _ _ _ => by simp [Node.beq]
  | .tag _ _ _, .text _ => by simp [Node.beq]

theorem nodeListBeq_iff : ∀ xs ys : List Node, nodeListBeq xs ys = true ↔ xs = ys
  | [], [] => by simp [nodeListBeq]
  | x :: xs, y :: ys => by
    simp [nodeListBeq, Node.beq_iff x y, nodeListBeq_iff xs ys]
  | [], _ :: _ => by simp [nodeListBeq]
  | _ :: _, [] => by simp [nodeListBeq]

end

instance : DecidableEq Node := fun x y => decidable_of_iff _ (Node.beq_iff x y)

/-- `isinstance(n, Tag)`. -/
def Node.isTag : Node → Bool
  | .text _ => false
  | .tag _ _ _ => true

/-- `tag.name` (empty for strings, which the script never asks). -/
def Node.tagName : Node → String
  | .text _ => ""
  | .tag n _ _ => n

/-- The attribute list of a node. -/
def Node.attrsOf : Node → List (String × String)
  | .text _ => []
  | .tag _ a _ => a

/-- The children of a node. -/
def Node.childrenOf : Node → List Node
  | .text _ => []
  | .tag _ _ c => c

/-- BeautifulSoup `tag.get(key)`. -/
def Node.getAttr (n : Node) (k : String) : Option String :=
  (n.attrsOf.find? (fun p => p.1 = k)).map Prod.snd

/-- BeautifulSoup `tag.get(key, default)`. -/
def Node.getAttrD (n : Node) (k d : String) : String := (n.getAttr k).getD d

mutual

/-- All descendants of a node, itself excluded, in document (pre-)order:
BeautifulSoup `.descendants` restricted to what `find`/`find_all` scan. -/
def Node.descendants : Node → List Node
  | .text _ => []
  | .tag _ _ cs => descList cs

/-- Descendants of a sibling list: each node followed by its descendants. -/
def descList : List Node → List Node
  | [] => []
  | n :: rest => n :: (Node.descendants n ++ descList rest)

end

/-- `tag.find_all(name)`: every descendant tag with the given element name. -/
def Node.findAllTag (n : Node) (nm : String) : List Node :=
  n.descendants.filter (fun d => d.isTag && d.tagName = nm)

/-- `tag.find(name, attr=True)`: first descendant tag of the given name
carrying the attribute. -/
def findFirstTagWithAttr (n : Node) (nm attr : String) : Option Node :=
  n.descendants.find? (fun d => d.isTag && d.tagName = nm && (d.getAttr attr).isSome)

mutual

/-- The strings under a node in document order (`tag.strings`). -/
def Node.texts : Node → List String
  | .text s => [s]
  | .tag _ _ cs => textsList cs

/-- The strings under a sibling list. -/
def textsList : List Node → List String
  | [] => []
  | n :: rest => Node.texts n ++ textsList rest

end

/-- `node.get_text(" ", strip=True)`: each string stripped, empties dropped,
the rest joined with single spaces. -/
def Node.getTextSp (n : Node) : String :=
  (joinSp (((n.texts.map (fun s => trimList s.toList))).filter (fun w => !w.isEmpty))).asString

/-- A table occurrence in a document: the previous siblings (nearest first),
the table itself, and the following siblings, as BeautifulSoup exposes
`previous_siblings` / `next_siblings` for an element found by `find_all`. -/
structure Located where
  prev : List Node
  node : Node
  nxt : List Node
deriving DecidableEq

mutual

/-- All tables in a sibling list and, recursively, inside them — document
order, exactly the elements `soup.find_all("table")` yields, each with its
sibling context. `prev` accumulates the earlier siblings, nearest first. -/
def tablesInList (prev : List Node) : List Node → List Located
  | [] => []
  | n :: rest => tablesInNode prev n rest ++ tablesInList (n :: prev) rest

/-- Tables at a node: the node itself when it is a `table`, then the tables
inside its children. -/
def tablesInNode (prev : List Node) (n : Node) (nxt : List Node) : List Located :=
  match n with
  | .text _ => []
  | .tag nm a cs =>
    (if nm = "table" then [⟨prev, .tag nm a cs, nxt⟩] else []) ++ tablesInList [] cs

end

/-- A document: the top-level node list of the parsed page. -/
abbrev Doc := List Node

/-- `soup.find_all("table")` with sibling contexts. -/
def docTables (doc : Doc) : List Located := tablesInList [] doc

/-! ### A small regular-expression matcher

Exactly the constructs the `THREAT_VARIANTS` patterns use: literals,
character classes, `*` over a class, a single class character, sequencing,
alternation and the `?` option. Subjects are case-folded before matching
(`re.IGNORECASE`); the patterns' literals are lowercase in the source. The
`\b` anchors wrapping every pattern are applied by the search loop. -/

/-- A character class occurring in the patterns. -/
inductive CC where
  | ws : CC
  | wsDash : CC
  | word : CC
  | oneOf : List Char → CC

/-- Membership in a character class (`\s`, `[\s\-]`, `\w`, explicit sets). -/
def CC.matches : CC → Char → Bool
  | .ws, c => c.isWhitespace
  | .wsDash, c => c.isWhitespace || c = '-'
  | .word, c => isWordChar c
  | .oneOf l, c => l.contains c

/-- Regular expressions over the constructs the source patterns use. -/
inductive RE where
  | eps : RE
  | lit : List Char → RE
  | one : CC → RE
  | star : CC → RE
  | seq : RE → RE → RE
  | alt : RE → RE → RE
  | opt : RE → RE

/-- Match a literal at the head, returning the consumed length. -/
def litMatch : List Char → List Char → Option Nat
  | [], _ => some 0
  | _ :: _, [] => none
  | p :: ps, c :: cs => if p = c then (litMatch ps cs).map (· + 1) else none

/-- All lengths a class-star can consume at the head. -/
def starLens (cc : CC) : List Char → List Nat
  | [] => [0]
  | c :: cs => 0 :: (if cc.matches c then (starLens cc cs).map (· + 1) else [])

/-- All lengths a regular expression can consume at the head of `cs`. -/
def matchFrom : RE → List Char → List Nat
  | .eps, _ => [0]
  | .lit p, cs => (litMatch p cs).toList
  | .one _, [] => []
  | .one cc, c :: _ => if cc.matches c then [1] else []
  | .star cc, cs => starLens cc cs
  | .seq a b, cs => (matchFrom a cs).flatMap (fun n => (matchFrom b (cs.drop n)).map (· + n))
  | .alt a b, cs => matchFrom a cs ++ matchFrom b cs
  | .opt a, cs => 0 :: matchFrom a cs

/-- Is position `i` of `cs` occupied by a word character? -/
def wordAt (cs : List Char) (i : Nat) : Bool :=
  match cs.get? i with
  | some c => isWordChar c
  | none => false

/-- Python `\b` at position `i`: exactly one side is a word character
(positions outside the string count as non-word). -/
def boundaryAt (cs : List Char) : Nat → Bool
  | 0 => wordAt cs 0
  | j + 1 => wordAt cs j != wordAt cs (j + 1)

/-- `re.search` over a case-folded subject for a pattern `\b core \b`. -/
def re_search_core (core : RE) (cs : List Char) : Bool :=
  (List.range (cs.length + 1)).any (fun i =>
    boundaryAt cs i &&
    (matchFrom core (cs.drop i)).any (fun n => boundaryAt cs (i + n)))

/-- `pat.search(text)` for a `THREAT_VARIANTS` pattern (`re.IGNORECASE`
modelled by case folding). -/
def re_search (core : RE) (text : String) : Bool :=
  re_search_core core (lowerChars text)

/-- The suffix `\s*[:\-]?\s*[xX×]` appended by the fallback in
`find_threat_status` (line 195); `[xX×]` on folded text. -/
def xSuffix : RE :=
  .seq (.star .ws) (.seq (.opt (.one (.oneOf [':', '-'])))
    (.seq (.star .ws) (.one (.oneOf ['x', '×']))))

/-- `re.search(pat.pattern + r"\s*[:\-]?\s*[xX×]", text, re.IGNORECASE)` for a
pattern `\b core \b`: the closing `\b` sits before the added suffix. -/
def re_search_x (core : RE) (text : String) : Bool :=
  let cs := lowerChars text
  (List.range (cs.length + 1)).any (fun i =>
    boundaryAt cs i &&
    (matchFrom core (cs.drop i)).any (fun n =>
      boundaryAt cs (i + n) && !(matchFrom xSuffix (cs.drop (i + n))).isEmpty))

/-- Literal helper. -/
def rlit (s : String) : RE := .lit s.toList

/-- Sequence helper. -/
def rcat : List RE → RE
  | [] => .eps
  | [r] => r
  | r :: rs => .seq r (rcat rs)

/-! ### The `THREAT_VARIANTS` patterns (lines 29–57) -/

/-- `\bnear[\s\-]*threaten(?:ed|ned)\b` -/
def pat_near1 : RE :=
  rcat [rlit "near", .star .wsDash, rlit "threaten", .alt (rlit "ed") (rlit "ned")]

/-- `\bnearth[\s\-]*threat(?:en(?:ed)?|ed|ned)\b` -/
def pat_near2 : RE :=
  rcat [rlit "nearth", .star .wsDash, rlit "threat",
    .alt (rcat [rlit "en", .opt (rlit "ed")]) (.alt (rlit "ed") (rlit "ned"))]

/-- `\bnear[\s\-]*threated\b` -/
def pat_near3 : RE := rcat [rlit "near", .star .wsDash, rlit "threated"]

/-- `\bnear[\s\-]*threat\w*\b` -/
def pat_near4 : RE := rcat [rlit "near", .star .wsDash, rlit "threat", .star .word]

/-- `\bcasi[\s\-]*amenazad[ao]s?\b` -/
def pat_near5 : RE :=
  rcat [rlit "casi", .star .wsDash, rlit "amenazad", .one (.oneOf ['a', 'o']),
    .opt (rlit "s")]

/-- `\bvulnerabl(?:e|e)\b` -/
def pat_vul1 : RE := rcat [rlit "vulnerabl", .alt (rlit "e") (rlit "e")]

/-- `\bvulnerable\b` -/
def pat_vul2 : RE := rlit "vulnerable"

/-- `\bendanger(?:ed|d)\b` -/
def pat_end1 : RE := rcat [rlit "endanger", .alt (rlit "ed") (rlit "d")]

/-- `\bendangered\b` -/
def pat_end2 : RE := rlit "endangered"

/-- `\ben[\s\-]*peligro\b` -/
def pat_end3 : RE := rcat [rlit "en", .star .wsDash, rlit "peligro"]

/-- `\bcritical(?:ly)?[\s\-]*endanger(?:ed|d)\b` -/
def pat_crit1 : RE :=
  rcat [rlit "critical", .opt (rlit "ly"), .star .wsDash, rlit "endanger",
    .alt (rlit "ed") (rlit "d")]

/-- `\bcritically[\s\-]*endangered\b` -/
def pat_crit2 : RE := rcat [rlit "critically", .star .wsDash, rlit "endangered"]

/-- `\bcirtical(?:ly)?[\s\-]*endager(?:ed|d)\b` -/
def pat_crit3 : RE :=
  rcat [rlit "cirtical", .opt (rlit "ly"), .star .wsDash, rlit "endager",
    .alt (rlit "ed") (rlit "d")]

/-- `\bcirtically[\s\-]*endagered\b` -/
def pat_crit4 : RE := rcat [rlit "cirtically", .star .wsDash, rlit "endagered"]

/-- `\ben[\s\-]*peligro[\s\-]*critico\b` -/
def pat_crit5 : RE :=
  rcat [rlit "en", .star .wsDash, rlit "peligro", .star .wsDash, rlit "critico"]

/-- `THREAT_VARIANTS` (lines 29–57) in the dict's insertion order. -/
def THREAT_VARIANTS : List (String × List RE) :=
  [("Near-threatened", [pat_near1, pat_near2, pat_near3, pat_near4, pat_near5]),
   ("Vulnerable", [pat_vul1, pat_vul2]),
   ("Endangered", [pat_end1, pat_end2, pat_end3]),
   ("Critically Endangered", [pat_crit1, pat_crit2, pat_crit3, pat_crit4, pat_crit5])]

/-- `CATEGORY_LABELS` (lines 11–16). -/
def CATEGORY_LABELS : List String :=
  ["Near-threatened", "Vulnerable", "Endangered", "Critically Endangered"]

/-- `_match_threat_in_text` (lines 92–98): first canonical label one of whose
variant patterns matches, else `""`. -/
def _match_threat_in_text (text : String) : String :=
  match THREAT_VARIANTS.find? (fun cp => cp.2.any (fun pat => re_search pat text)) with
  | some cp => cp.1
  | none => ""

/-! ### Table classification -/

/-- `STAGE_KEYWORDS` (lines 19–26). -/
def STAGE_KEYWORDS : List String :=
  ["male", "female", "chicks", "juvenile", "immature", "immatures",
   "subadult", "sub-adult", "nest", "nymph", "egg", "eggs", "adult",
   "macho", "hembra", "pichon", "pichones", "juvenil", "inmaduro", "inmaduros",
   "subadulto", "nido", "ninfa", "huevo", "huevos", "adulto", "adultos"]

/-- `is_big_image_table` (lines 205–219): a `table` with `width="800"`, a
border attribute parsing to an integer `≥ 6` (`ValueError` → 0), containing
an `img` whose `src` passes `endswith_jpg`. -/
def is_big_image_table (tbl : Node) : Bool :=
  if ¬ (tbl.isTag && tbl.tagName = "table") then false
  else if tbl.getAttr "width" ≠ some "800" then false
  else if ((py_int? (tbl.getAttrD "border" "0")).getD 0) < 6 then false
  else tbl.descendants.any (fun d =>
    d.isTag && d.tagName = "img" && endswith_jpg (d.getAttr "src"))

/-- `_looks_like_stage_table` (lines 131–144): compact text containing a stage
keyword (lowercased), no digits, at most 120 characters. -/
def _looks_like_stage_table (tbl : Node) : Bool :=
  if ¬ (tbl.isTag && tbl.tagName = "table") then false
  else
    let t := compact_text tbl.getTextSp
    let t_lower := (lowerChars t).asString
    if ¬ (STAGE_KEYWORDS.any fun kw => strContains t_lower kw) then false
    else if t.toList.any Char.isDigit then false
    else if 120 < t.toList.length then false
    else true

/-- The lookback loop of `find_stage_tag_near_table` (lines 150–165): walk the
previous siblings nearest first, skip non-table nodes, stop at a big image
table, return the first stage table's compact text, give up after
`max_lookback_tables` tables. -/
def stage_go (max_lookback_tables : Nat) : List Node → Nat → String
  | [], _ => ""
  | sib :: rest, count =>
    if ¬ (sib.isTag && sib.tagName = "table") then
      stage_go max_lookback_tables rest count
    else if is_big_image_table sib then ""
    else if _looks_like_stage_table sib then compact_text sib.getTextSp
    else if max_lookback_tables ≤ count + 1 then ""
    else stage_go max_lookback_tables rest (count + 1)

/-- `find_stage_tag_near_table` (lines 147–165) on the starting table's
previous siblings (nearest first). -/
def find_stage_tag_near_table (prevSibs : List Node) (max_lookback_tables : Nat := 3) : String :=
  stage_go max_lookback_tables prevSibs 0

/-- The loop of `find_following_800_text_tables` (lines 226–241): collect the
compact text of following `width="800" border="1"` tables, stop after
`max_tables` of them or at a big image table. -/
def follow_go (max_tables : Nat) : List Node → List String → List String
  | [], results => results
  | sib :: rest, results =>
    if ¬ sib.isTag then follow_go max_tables rest results
    else if sib.tagName ≠ "table" then follow_go max_tables rest results
    else if sib.getAttr "width" = some "800" ∧ sib.getAttr "border" = some "1" then
      let results' := results ++ [compact_text sib.getTextSp]
      if max_tables ≤ results'.length then results'
      else if is_big_image_table sib then results'
      else follow_go max_tables rest results'
    else if is_big_image_table sib then results
    else follow_go max_tables rest results

/-- `find_following_800_text_tables` (lines 222–241) on the starting table's
following siblings. -/
def find_following_800_text_tables (nextSibs : List Node) (max_tables : Nat := 2) : List String :=
  follow_go max_tables nextSibs []

/-- The fallback branch of `extract_first_img_and_anchor` (lines 255–259). -/
def extract_fallback (table : Node) : Option String × Option String :=
  match findFirstTagWithAttr table "img" "src" with
  | some img_tag =>
    if endswith_jpg (img_tag.getAttr "src") then (img_tag.getAttr "src", none)
    else (none, none)
  | none => (none, none)

/-- `extract_first_img_and_anchor` (lines 244–259): thumbnail `src` and large
`href` from the first anchored image, else from the first image. -/
def extract_first_img_and_anchor (table : Node) : Option String × Option String :=
  match findFirstTagWithAttr table "a" "href" with
  | some a_tag =>
    (match findFirstTagWithAttr a_tag "img" "src" with
     | some img_tag =>
       if endswith_jpg (img_tag.getAttr "src") then
         (img_tag.getAttr "src",
          if endswith_jpg (a_tag.getAttr "href") then a_tag.getAttr "href" else none)
       else extract_fallback table
     | none => extract_fallback table)
  | none => extract_fallback table

/-! ### Conservation-status detection -/

/-- Row loop of `_find_status_in_table` (lines 106–127): find a row with a
cell holding exactly `x`/`×`, then map the rightmost cell's text, else the
whole row's text, to a canonical label. -/
def status_rows_go : List Node → String
  | [] => ""
  | tr :: trs =>
    match tr.findAllTag "td" with
    | [] => status_rows_go trs
    | td0 :: tds' =>
      let tds := td0 :: tds'
      let marker_found := tds.any (fun td =>
        let t := (lowerChars (compact_text td.getTextSp)).asString
        t = "x" || t = "×")
      if ¬ marker_found then status_rows_go trs
      else
        let right_text := compact_text (tds.getLast (List.cons_ne_nil td0 tds')).getTextSp
        let label := _match_threat_in_text right_text
        if label ≠ "" then label
        else
          let row_text := compact_text tr.getTextSp
          let label2 := _match_threat_in_text row_text
          if label2 ≠ "" then label2
          else status_rows_go trs

/-- `_find_status_in_table` (lines 101–128). -/
def _find_status_in_table (table : Node) : String :=
  if ¬ (table.isTag && table.tagName = "table") then ""
  else status_rows_go (table.findAllTag "tr")

/-- Sibling loop of `find_threat_status` (lines 182–191): scan up to 4
following sibling tables for a status selection. -/
def threat_sibs_go : List Node → Nat → String
  | [], _ => ""
  | sib :: rest, sib_count =>
    if ¬ (sib.isTag && sib.tagName = "table") then threat_sibs_go rest sib_count
    else
      let status := _find_status_in_table sib
      if status ≠ "" then status
      else if 4 ≤ sib_count + 1 then ""
      else threat_sibs_go rest (sib_count + 1)

/-- Fallback of `find_threat_status` (lines 193–196): `LABEL … x` inside the
header table's raw text. -/
def threat_x_fallback (table_text_original : String) : String :=
  match THREAT_VARIANTS.find? (fun cp => cp.2.any (fun pat => re_search_x pat table_text_original)) with
  | some cp => cp.1
  | none => ""

/-- Header-table loop of `find_threat_status` (lines 172–196). -/
def threat_tables_go : List Located → String
  | [] => ""
  | loc :: rest =>
    let table_text_original := loc.node.getTextSp
    let table_text := (lowerChars (compact_text table_text_original)).asString
    if strContains table_text "globally threatened species" then
      let direct := _find_status_in_table loc.node
      if direct ≠ "" then direct
      else
        let status := threat_sibs_go loc.nxt 0
        if status ≠ "" then status
        else
          let fb := threat_x_fallback table_text_original
          if fb ≠ "" then fb
          else threat_tables_go rest
    else threat_tables_go rest

/-- Global fallback loop of `find_threat_status` (lines 198–201). -/
def threat_global_go : List Located → String
  | [] => ""
  | loc :: rest =>
    let s := _find_status_in_table loc.node
    if s ≠ "" then s else threat_global_go rest

/-- `find_threat_status` (lines 168–202). -/
def find_threat_status (doc : Doc) : String :=
  let tabs := docTables doc
  let first := threat_tables_go tabs
  if first ≠ "" then first else threat_global_go tabs

/-! ### Record extraction -/

/-- One parsed row: the dict built by `parse_big_blocks` /
`parse_small_ffn_tables`; `Threat_Status` (absent until `parse_file` adds it)
is carried as a field set to `""` by the parsers and overwritten by
`parse_file`. -/
structure Row where
  Is_Small_ffn_gif : String
  Thumbnail_File : String
  Large_File : String
  Camera_Equipment : String
  Location_Date : String
  Sex_Age : String
  Threat_Status : String
deriving DecidableEq

/-- Per-table body of the `parse_big_blocks` loop (lines 265–285). -/
def big_block_row (loc : Located) : Option Row :=
  if ¬ is_big_image_table loc.node then none
  else
    let ta := extract_first_img_and_anchor loc.node
    match ta.1 with
    | none => none
    | some thumb =>
      if thumb = "" then none
      else
        let follow_texts := find_following_800_text_tables loc.nxt 2
        let camera := (follow_texts.get? 0).getD ""
        let location := (follow_texts.get? 1).getD ""
        let stage_label := find_stage_tag_near_table loc.prev
        some { Is_Small_ffn_gif := "", Thumbnail_File := thumb,
               Large_File := ta.2.getD "", Camera_Equipment := camera,
               Location_Date := location, Sex_Age := stage_label,
               Threat_Status := "" }

/-- `parse_big_blocks` (lines 262–286). -/
def parse_big_blocks (doc : Doc) : List Row :=
  (docTables doc).filterMap big_block_row

/-- `td.get("background") and "ffn.gif" in td.get("background")`. -/
def has_ffn_bg (td : Node) : Bool :=
  match td.getAttr "background" with
  | some bg => bg ≠ "" && strContains bg "ffn.gif"
  | none => false

/-- `int(colspan_val) if colspan_val else 1`, `ValueError` → 1 (lines 307–311
and 337–341). -/
def colspan_of (td : Node) : Int :=
  match td.getAttr "colspan" with
  | none => 1
  | some v => if v = "" then 1 else (py_int? v).getD 1

/-- Per-column texts of a row expanded by colspan (lines 305–314). -/
def expanded_texts (tds : List Node) : List String :=
  tds.flatMap (fun td =>
    List.replicate (max 1 (colspan_of td)).toNat (compact_text td.getTextSp))

/-- Update of `last_text_by_column` on a text row (lines 316–332). -/
def update_last (last expanded : List String) : List String :=
  if expanded.any (fun txt => txt ≠ "") then
    if ¬ last.isEmpty ∧ last.length = expanded.length then
      (last.zip expanded).map (fun pc =>
        if pc.1 ≠ "" ∧ pc.2 ≠ "" then pc.1 ++ " " ++ pc.2
        else if pc.1 ≠ "" then pc.1 else pc.2)
    else expanded
  else []

/-- Per-cell body of the `ffn.gif` row loop (lines 343–363): at most one row,
for an `ffn.gif` cell with a `.jpg` thumbnail. -/
def ffn_cell_rows (stage : String) (last : List String) (td : Node) (col_index_pointer : Nat) : List Row :=
  if has_ffn_bg td then
    let a_tag := findFirstTagWithAttr td "a" "href"
    let img_tag := findFirstTagWithAttr td "img" "src"
    let thumb : Option String :=
      match img_tag with
      | some img => if endswith_jpg (img.getAttr "src") then img.getAttr "src" else none
      | none => none
    let large : Option String :=
      match a_tag with
      | some a => if endswith_jpg (a.getAttr "href") then a.getAttr "href" else none
      | none => none
    match thumb with
    | some t =>
      if t = "" then []
      else
        let per_cell_text := (last.get? col_index_pointer).getD ""
        [{ Is_Small_ffn_gif := "Y", Thumbnail_File := t,
           Large_File := large.getD "", Camera_Equipment := "",
           Location_Date := per_cell_text, Sex_Age := stage,
           Threat_Status := "" }]
    | none => []
  else []

/-- Cell loop over an `ffn.gif` row (lines 335–365), advancing the column
pointer by colspan. -/
def ffn_row_rows (stage : String) (last : List String) : List Node → Nat → List Row
  | [], _ => []
  | td :: rest, col_index_pointer =>
    ffn_cell_rows stage last td col_index_pointer ++
      ffn_row_rows stage last rest (col_index_pointer + (max 1 (colspan_of td)).toNat)

/-- Row loop of `parse_small_ffn_tables` (lines 299–365), threading
`last_text_by_column`. -/
def small_rows_go (stage : String) : List Node → List String → List Row
  | [], _ => []
  | tr :: trs, last =>
    let tds := tr.findAllTag "td"
    let has_ffn := tds.any has_ffn_bg
    let expanded := expanded_texts tds
    if ¬ has_ffn then small_rows_go stage trs (update_last last expanded)
    else ffn_row_rows stage last tds 0 ++ small_rows_go stage trs last

/-- Per-table body of the `parse_small_ffn_tables` loop (lines 292–365). -/
def small_table_rows (loc : Located) : List Row :=
  let ffn_cells := loc.node.descendants.filter (fun d =>
    d.isTag && d.tagName = "td" && has_ffn_bg d)
  if ffn_cells.isEmpty then []
  else
    let stage_label_for_table := find_stage_tag_near_table loc.prev
    small_rows_go stage_label_for_table (loc.node.findAllTag "tr") []

/-- `parse_small_ffn_tables` (lines 289–366). -/
def parse_small_ffn_tables (doc : Doc) : List Row :=
  (docTables doc).flatMap small_table_rows

/-- `parse_file` (lines 369–388) after a successful read, on the parsed tree:
big blocks, then small `ffn.gif` rows, threat status attached to each. -/
def parse_file_doc (doc : Doc) : List Row :=
  let threat := find_threat_status doc
  let rows_big := parse_big_blocks doc
  let rows_small := parse_small_ffn_tables doc
  (rows_big ++ rows_small).map (fun r => { r with Threat_Status := threat })

/-! ### File reading and the main pipeline -/

/-- A Python exception class relevant to `read_html_file`. -/
inductive PyErr where
  | unicodeDecodeError : PyErr
  | otherError : PyErr
deriving DecidableEq

instance : DecidableEq (Except PyErr String) := fun a b =>
  match a, b with
  | .ok x, .ok y => decidable_of_iff (x = y) (by simp)
  | .error x, .error y => decidable_of_iff (x = y) (by simp)
  | .ok _, .error _ => .isFalse (by simp)
  | .error _, .ok _ => .isFalse (by simp)

/-- Outcomes of the two reads a file can undergo: the UTF-8 attempt and the
latin-1 attempt (consulted only after a `UnicodeDecodeError`). -/
structure ReadRes where
  utf8 : Except PyErr String
  latin1 : Except PyErr String
deriving DecidableEq

/-- `read_html_file` (lines 60–73): UTF-8 first; on `UnicodeDecodeError` retry
latin-1; any other failure (or a failing retry) prints an error and yields
`none`. The second component is the printed output. -/
def read_html_file (path : String) (r : ReadRes) : Option String × List String :=
  match r.utf8 with
  | .ok content => (some content, [])
  | .error .unicodeDecodeError =>
    (match r.latin1 with
     | .ok content => (some content, [])
     | .error _ => (none, ["Error reading " ++ path]))
  | .error .otherError => (none, ["Error reading " ++ path])

/-- One file the directory scan can see: its basename, the outcome of reading
it, and the tree BeautifulSoup builds from its content when read. -/
structure FileInput where
  filename : String
  read : ReadRes
  doc : Doc
deriving DecidableEq

/-- `parse_file` (lines 369–388): empty on a failed read, else the parsed
rows of the tree. -/
def parse_file (fi : FileInput) : List Row :=
  match (read_html_file fi.filename fi.read).1 with
  | none => []
  | some _ => parse_file_doc fi.doc

/-- The glob `Fotos_*.html`. -/
def matches_fotos_glob (name : String) : Bool :=
  leadMatches "Fotos_".toList name.toList && listEndsWith name.toList ".html".toList

/-- `os.path.splitext(name)[0]` for a basename: drop the last `.`-extension,
unless every character before that dot is itself a dot. -/
def dropExtRev : List Char → Option (List Char)
  | [] => none
  | '.' :: restRev => some restRev
  | _ :: restRev => dropExtRev restRev

/-- `os.path.splitext(name)[0]` on a basename. -/
def splitext_base (name : String) : String :=
  match dropExtRev name.toList.reverse with
  | some baseRev =>
    if baseRev.any (fun c => c ≠ '.') then baseRev.reverse.asString else name
  | none => name

/-- `os.sep`-stripping: `cwd.rstrip(os.sep)`. -/
def rstrip_sep (cs : List Char) : List Char :=
  (cs.reverse.dropWhile (fun c => c = '/')).reverse

/-- `os.path.basename`: the segment after the last `/`. -/
def basenameAux : List Char → List Char → List Char
  | [], acc => acc.reverse
  | '/' :: rest, _ => basenameAux rest []
  | c :: rest, acc => basenameAux rest (c :: acc)

/-- `get_current_folder_name` (lines 84–85):
`os.path.basename(os.getcwd().rstrip(os.sep)) or "Image_Listing"`. -/
def get_current_folder_name (cwd : String) : String :=
  let b := (basenameAux (rstrip_sep cwd.toList) []).asString
  if b = "" then "Image_Listing" else b

/-- Code-point lexicographic `<` on strings, as Python compares paths. -/
def strLtChars : List Char → List Char → Bool
  | [], [] => false
  | [], _ :: _ => true
  | _ :: _, [] => false
  | a :: cs, b :: ds =>
    if a.val < b.val then true
    else if b.val < a.val then false
    else strLtChars cs ds

/-- Stable insertion of a file into a name-sorted list. -/
def insertFile (x : FileInput) : List FileInput → List FileInput
  | [] => [x]
  | y :: ys =>
    if strLtChars y.filename.toList x.filename.toList then y :: insertFile x ys
    else x :: y :: ys

/-- `sorted(files)` (line 404) on the per-directory basenames. -/
def sortFiles : List FileInput → List FileInput
  | [] => []
  | x :: xs => insertFile x (sortFiles xs)

/-- The output record of `main` (lines 418–434): the fixed column structure,
with the always-empty placeholder columns. -/
structure OutRecord where
  Species_ID : String
  Slug : String
  Subspecies_ID : String
  Slide : String
  Cover : String
  Thumbnail_Filename : String
  Large_Filename : String
  Equipment : String
  Sex_Age : String
  Location : String
  Province : String
  Country : String
  Date : String
  Location_Date : String
  Threat_Status : String
deriving DecidableEq

/-- The `r_out` dict of `main` (lines 418–434). -/
def mk_out_record (species : String) (r : Row) : OutRecord :=
  { Species_ID := "", Slug := species, Subspecies_ID := "",
    Slide := r.Is_Small_ffn_gif, Cover := "",
    Thumbnail_Filename := r.Thumbnail_File, Large_Filename := r.Large_File,
    Equipment := r.Camera_Equipment, Sex_Age := r.Sex_Age,
    Location := "", Province := "", Country := "", Date := "",
    Location_Date := r.Location_Date, Threat_Status := r.Threat_Status }

/-- Per-file body of the `main` loop (lines 404–435): skip names without the
`Fotos_` stem, parse, keep only `.jpg` thumbnails, build records. -/
def build_records_for_file (fi : FileInput) : List OutRecord :=
  let base := splitext_base fi.filename
  if ¬ leadMatches "Fotos_".toList base.toList then []
  else
    let species := (base.toList.drop "Fotos_".toList.length).asString
    (parse_file fi).filterMap (fun r =>
      if ¬ endswith_jpg (some r.Thumbnail_File) then none
      else some (mk_out_record species r))

/-- What the `main` loop prints for one file: the `Processing …` line and any
read errors. -/
def file_log (fi : FileInput) : List String :=
  let base := splitext_base fi.filename
  if ¬ leadMatches "Fotos_".toList base.toList then []
  else
    let species := (base.toList.drop "Fotos_".toList.length).asString
    ("Processing " ++ fi.filename ++ " (species: " ++ species ++ ") ...")
      :: (read_html_file fi.filename fi.read).2

/-- All records `main` accumulates from a directory listing. -/
def main_records (listing : List FileInput) : List OutRecord :=
  (sortFiles (listing.filter (fun fi => matches_fotos_glob fi.filename))).flatMap
    build_records_for_file

/-- The DataFrame column order (lines 442–458). -/
def HEADER_COLUMNS : List String :=
  ["Species_ID", "Slug", "Subspecies_ID", "Slide", "Cover",
   "Thumbnail_Filename", "Large_Filename", "Equipment", "Sex_Age",
   "Location", "Province", "Country", "Date", "Location_Date", "Threat_Status"]

/-- A record's cells in DataFrame column order. -/
def record_to_cells (r : OutRecord) : List String :=
  [r.Species_ID, r.Slug, r.Subspecies_ID, r.Slide, r.Cover,
   r.Thumbnail_Filename, r.Large_Filename, r.Equipment, r.Sex_Age,
   r.Location, r.Province, r.Country, r.Date, r.Location_Date, r.Threat_Status]

/-- Modelled from the documented pandas behaviour of
`df.to_excel(writer, index=False, sheet_name="Images", startrow=0)` (line
465): the header row followed by the data rows, no index column. -/
def to_excel_grid (headers : List String) (data : List (List String)) : List (List String) :=
  headers :: data

/-- Modelled from the documented openpyxl behaviour of
`worksheet.insert_cols(1)` (line 472): every row shifts one column right,
column A becomes empty. -/
def insert_cols_1 (g : List (List String)) : List (List String) :=
  g.map (fun row => "" :: row)

/-- Modelled from the documented openpyxl behaviour of
`worksheet.insert_rows(1)` (line 475): every row shifts down, row 1 becomes
empty. -/
def insert_rows_1 (g : List (List String)) : List (List String) :=
  [] :: g

/-- The worksheet grid `main` writes (lines 463–475). -/
def excel_grid (headers : List String) (data : List (List String)) : List (List String) :=
  insert_rows_1 (insert_cols_1 (to_excel_grid headers data))

/-- The 1-based cell view of a grid; absent cells are empty. -/
def cellAt (g : List (List String)) (r c : Nat) : String :=
  (((g.get? (r - 1)).getD []).get? (c - 1)).getD ""

/-- `os.path.join(cwd, name)` for a relative `name`. -/
def pyJoin (cwd name : String) : String :=
  if cwd = "" then name
  else if listEndsWith cwd.toList ['/'] then cwd ++ name
  else cwd ++ "/" ++ name

/-- The observable result of `main`: its exit code, what it printed, and the
single workbook it wrote, if any, as (path, grid). -/
structure MainResult where
  exitCode : Int
  messages : List String
  output : Option (String × List (List String))
deriving DecidableEq

/-- `main` (lines 391–479) on the current directory path and the directory's
listing (each entry carrying its read outcome and parsed tree). -/
def main (cwd : String) (listing : List FileInput) : MainResult :=
  let folder_name := get_current_folder_name cwd
  let files := listing.filter (fun fi => matches_fotos_glob fi.filename)
  if files.isEmpty then
    { exitCode := 0,
      messages := ["No matching HTML files (Fotos_*.html) found in current folder."],
      output := none }
  else
    let records := main_records listing
    let logs := ("Found " ++ natToStr files.length ++ " file(s) to process.")
      :: (sortFiles files).flatMap file_log
    if records.isEmpty then
      { exitCode := 0, messages := logs ++ ["No image records found."], output := none }
    else
      let out_path := pyJoin cwd (folder_name ++ "_Image_Listing.xlsx")
      let grid := excel_grid HEADER_COLUMNS (records.map record_to_cells)
      { exitCode := 0,
        messages := logs ++
          ["Wrote " ++ natToStr records.length ++ " rows to " ++ out_path,
           "Excel structure: Row 1 (empty), Row 2 (headers), Row 3+ (data)"],
        output := some (out_path, grid) }

/-! ### Sample inputs used by the witnesses -/

/-- A document with one big image block. -/
def docBig : Doc :=
  [.tag "table" [("width", "800"), ("border", "9")]
    [.tag "a" [("href", "b.jpg")] [.tag "img" [("src", "t.jpg")] []]]]

/-- The row `docBig` parses to. -/
def rowBig : Row :=
  { Is_Small_ffn_gif := "", Thumbnail_File := "t.jpg", Large_File := "b.jpg",
    Camera_Equipment := "", Location_Date := "", Sex_Age := "", Threat_Status := "" }

/-- A directory listing holding one well-formed file. -/
def listingBig : List FileInput :=
  [⟨"Fotos_Xyz.html", ⟨.ok "page", .ok "page"⟩, docBig⟩]

/-- A document with no matching tables at all. -/
def docPlain : Doc := [.tag "table" [] [.tag "tr" [] [.tag "td" [] [.text "hi"]]]]

/-- A document with one small `ffn.gif` thumbnail cell. -/
def docSmall : Doc :=
  [.tag "table" []
    [.tag "tr" [] [.tag "td" [("background", "x/ffn.gif")]
      [.tag "img" [("src", "s.jpg")] []]]]]

/-- The row `docSmall` parses to. -/
def rowSmall : Row :=
  { Is_Small_ffn_gif := "Y", Thumbnail_File := "s.jpg", Large_File := "",
    Camera_Equipment := "", Location_Date := "", Sex_Age := "", Threat_Status := "" }

/-- A single stage-label table, used as a previous-sibling list. -/
def stageSibs : List Node := [.tag "table" [] [.tag "tr" [] [.tag "td" [] [.text "Male"]]]]

/-! ### Basic facts shared by several claims -/

theorem extract_fallback_thumb_jpg (table : Node) (t : String)
    (h : (extract_fallback table).1 = some t) : endswith_jpg (some t) = true := by
  unfold extract_fallback at h
  cases hf : findFirstTagWithAttr table "img" "src" with
  | none => rw [hf] at h; simp at h
  | some img =>
    rw [hf] at h
    dsimp only at h
    by_cases hj : endswith_jpg (img.getAttr "src") = true
    · rw [if_pos hj] at h
      simp only at h
      rw [h] at hj
      exact hj
    · rw [if_neg hj] at h
      simp at h

theorem extract_thumb_jpg (table : Node) (t : String)
    (h : (extract_first_img_and_anchor table).1 = some t) :
    endswith_jpg (some t) = true := by
  unfold extract_first_img_and_anchor at h
  cases ha : findFirstTagWithAttr table "a" "href" with
  | none => rw [ha] at h; exact extract_fallback_thumb_jpg table t h
  | some a_tag =>
    rw [ha] at h
    dsimp only at h
    cases hi : findFirstTagWithAttr a_tag "img" "src" with
    | none => rw [hi] at h; exact extract_fallback_thumb_jpg table t h
    | some img =>
      rw [hi] at h
      dsimp only at h
      by_cases hj : endswith_jpg (img.getAttr "src") = true
      · rw [if_pos hj] at h
        simp only at h
        rw [h] at hj
        exact hj
      · rw [if_neg hj] at h
        exact extract_fallback_thumb_jpg table t h

/-! ### C3 -/

/-- C3: conservation-status matching is case-insensitive — `_match_threat_in_text`
returns the same canonical label on any two casings of a text — and the typo
variants encoded in `THREAT_VARIANTS` map to their canonical labels:
`"Cirtically-endagered"` to `"Critically Endangered"`, `"Nearth-threatened"`
and `"Near-threated"` to `"Near-threatened"`. -/
theorem C3_threat_matching_case_insensitive_and_typo_tolerant :
    (∀ s t : String, lowerChars s = lowerChars t →
      _match_threat_in_text s = _match_threat_in_text t) ∧
    _match_threat_in_text "Cirtically-endagered" = "Critically Endangered" ∧
    _match_threat_in_text "Nearth-threatened" = "Near-threatened" ∧
    _match_threat_in_text "Near-threated" = "Near-threatened" := by
  refine ⟨?_, by decide, by decide, by decide⟩
  intro s t h
  simp only [_match_threat_in_text, re_search, h]

/-- Witness for C3 at a concrete casing pair. -/
theorem C3_witness :
    lowerChars "VULNERABLE species" = lowerChars "Vulnerable Species" ∧
    _match_threat_in_text "VULNERABLE species" = _match_threat_in_text "Vulnerable Species" :=
  ⟨by decide,
   C3_threat_matching_case_insensitive_and_typo_tolerant.1 _ _ (by decide)⟩

/-! ### C4 -/

/-- C4 counterexample: a `table` whose width and border carry the fixed
identifying values (`width="800"`, `border="9"`) but which holds no image is
not classified as a big image block, refuting the claimed equivalence with
the attribute test alone. -/
theorem C4_counterexample :
    (Node.tag "table" [("width", "800"), ("border", "9")] []).getAttr "width" = some "800" ∧
    (py_int? ((Node.tag "table" [("width", "800"), ("border", "9")] []).getAttrD "border" "0")).getD 0 = 9 ∧
    is_big_image_table (Node.tag "table" [("width", "800"), ("border", "9")] []) = false := by
  decide

/-- C4 (amended): `is_big_image_table` returns true exactly when the node is a
`table` tag whose `width` attribute is `"800"`, whose `border` attribute
parses to an integer at least 6 (0 when absent or unparsable), and which
contains an `img` descendant whose `src` ends in `.jpg`. -/
theorem C4_big_image_table_characterization (tbl : Node) :
    is_big_image_table tbl = true ↔
      tbl.isTag = true ∧ tbl.tagName = "table" ∧
      tbl.getAttr "width" = some "800" ∧
      6 ≤ (py_int? (tbl.getAttrD "border" "0")).getD 0 ∧
      ∃ d ∈ tbl.descendants, d.isTag = true ∧ d.tagName = "img" ∧
        endswith_jpg (d.getAttr "src") = true := by
  unfold is_big_image_table
  by_cases h1 : (tbl.isTag && tbl.tagName = "table") = true
  · rw [if_neg (not_not_intro h1)]
    simp only [Bool.and_eq_true, decide_eq_true_eq] at h1
    by_cases h2 : tbl.getAttr "width" = some "800"
    · rw [if_neg (not_not_intro h2)]
      by_cases h3 : (py_int? (tbl.getAttrD "border" "0")).getD 0 < 6
      · rw [if_pos h3]
        simp only [Bool.false_eq_true, false_iff]
        rintro ⟨-, -, -, hB, -⟩
        omega
      · rw [if_neg h3]
        rw [not_lt] at h3
        simp only [List.any_eq_true, Bool.and_eq_true, decide_eq_true_eq]
        constructor
        · rintro ⟨d, hd, ⟨hdt, hdn⟩, hds⟩
          exact ⟨h1.1, h1.2, h2, h3, d, hd, hdt, hdn, hds⟩
        · rintro ⟨-, -, -, -, d, hd, hdt, hdn, hds⟩
          exact ⟨d, hd, ⟨hdt, hdn⟩, hds⟩
    · rw [if_pos h2]
      simp only [Bool.false_eq_true, false_iff]
      rintro ⟨-, -, hW, -⟩
      exact h2 hW
  · rw [if_pos h1]
    simp only [Bool.false_eq_true, false_iff]
    rintro ⟨hT, hN, -⟩
    exact h1 (by simp [hT, hN])

/-! ### C8 -/

/-- C8: a document none of whose tables is a big image block and none of
whose tables holds an `ffn.gif` background cell parses to no records at all:
both parsers, and `parse_file` on the tree, return the empty list. -/
theorem C8_no_matching_tables (doc : Doc)
    (h : ∀ loc ∈ docTables doc, is_big_image_table loc.node = false ∧
      (loc.node.descendants.filter (fun d =>
        d.isTag && d.tagName = "td" && has_ffn_bg d)).isEmpty = true) :
    parse_big_blocks doc = [] ∧ parse_small_ffn_tables doc = [] ∧
      parse_file_doc doc = [] := by
  have hbig : parse_big_blocks doc = [] := by
    rw [parse_big_blocks, List.filterMap_eq_nil_iff]
    intro loc hloc
    simp [big_block_row, (h loc hloc).1]
  have hsmall : parse_small_ffn_tables doc = [] := by
    rw [parse_small_ffn_tables]
    apply List.flatMap_eq_nil_iff.mpr
    intro loc hloc
    simp [small_table_rows, (h loc hloc).2]
  refine ⟨hbig, hsmall, ?_⟩
  rw [parse_file_doc]
  simp [hbig, hsmall]

/-- Witness for C8 at a document with one plain table. -/
theorem C8_witness :
    (∀ loc ∈ docTables docPlain, is_big_image_table loc.node = false ∧
      (loc.node.descendants.filter (fun d =>
        d.isTag && d.tagName = "td" && has_ffn_bg d)).isEmpty = true) ∧
    (parse_big_blocks docPlain = [] ∧ parse_small_ffn_tables docPlain = [] ∧
      parse_file_doc docPlain = []) :=
  ⟨by decide, C8_no_matching_tables docPlain (by decide)⟩

/-! ### Row-level invariants of the two parsers -/

theorem big_block_row_props (loc : Located) (r : Row) (h : big_block_row loc = some r) :
    r.Is_Small_ffn_gif = "" ∧ endswith_jpg (some r.Thumbnail_File) = true ∧
    r.Threat_Status = "" := by
  unfold big_block_row at h
  by_cases hb : is_big_image_table loc.node = true
  · rw [if_neg (not_not_intro hb)] at h
    dsimp only at h
    cases ht : (extract_first_img_and_anchor loc.node).1 with
    | none => rw [ht] at h; simp at h
    | some thumb =>
      rw [ht] at h
      dsimp only at h
      by_cases he : thumb = ""
      · rw [if_pos he] at h; simp at h
      · rw [if_neg he] at h
        have hjpg := extract_thumb_jpg loc.node thumb ht
        simp only [Option.some.injEq] at h
        subst h
        exact ⟨rfl, hjpg, rfl⟩
  · rw [if_pos hb] at h; simp at h

theorem parse_big_blocks_row_props (doc : Doc) (r : Row) (h : r ∈ parse_big_blocks doc) :
    r.Is_Small_ffn_gif = "" ∧ endswith_jpg (some r.Thumbnail_File) = true ∧
    r.Threat_Status = "" := by
  rw [parse_big_blocks, List.mem_filterMap] at h
  obtain ⟨loc, -, heq⟩ := h
  exact big_block_row_props loc r heq

theorem ffn_cell_rows_props (stage : String) (last : List String) (td : Node) (p : Nat)
    (r : Row) (h : r ∈ ffn_cell_rows stage last td p) :
    r.Is_Small_ffn_gif = "Y" ∧ r.Camera_Equipment = "" ∧
    endswith_jpg (some r.Thumbnail_File) = true ∧ r.Sex_Age = stage ∧
    r.Threat_Status = "" := by
  unfold ffn_cell_rows at h
  by_cases hbg : has_ffn_bg td = true
  · rw [if_pos hbg] at h
    dsimp only at h
    cases himg : findFirstTagWithAttr td "img" "src" with
    | none => rw [himg] at h; simp at h
    | some img =>
      rw [himg] at h
      dsimp only at h
      by_cases hj : endswith_jpg (img.getAttr "src") = true
      · rw [if_pos hj] at h
        cases hsrc : img.getAttr "src" with
        | none => rw [hsrc] at hj; simp [endswith_jpg] at hj
        | some t =>
          rw [hsrc] at h hj
          dsimp only at h
          by_cases he : t = ""
          · rw [if_pos he] at h; simp at h
          · rw [if_neg he] at h
            rw [List.mem_singleton] at h
            subst h
            exact ⟨rfl, rfl, hj, rfl, rfl⟩
      · rw [if_neg hj] at h; simp at h
  · rw [if_neg hbg] at h; simp at h

theorem ffn_row_rows_props (stage : String) (last : List String) :
    ∀ (tds : List Node) (p : Nat) (r : Row), r ∈ ffn_row_rows stage last tds p →
      r.Is_Small_ffn_gif = "Y" ∧ r.Camera_Equipment = "" ∧
      endswith_jpg (some r.Thumbnail_File) = true ∧ r.Sex_Age = stage ∧
      r.Threat_Status = "" := by
  intro tds
  induction tds with
  | nil => intro p r h; simp [ffn_row_rows] at h
  | cons td rest ih =>
    intro p r h
    rw [ffn_row_rows, List.mem_append] at h
    rcases h with h | h
    · exact ffn_cell_rows_props stage last td p r h
    · exact ih _ r h

theorem small_rows_go_props (stage : String) :
    ∀ (trs : List Node) (last : List String) (r : Row), r ∈ small_rows_go stage trs last →
      r.Is_Small_ffn_gif = "Y" ∧ r.Camera_Equipment = "" ∧
      endswith_jpg (some r.Thumbnail_File) = true ∧ r.Sex_Age = stage ∧
      r.Threat_Status = "" := by
  intro trs
  induction trs with
  | nil => intro last r h; simp [small_rows_go] at h
  | cons tr trs ih =>
    intro last r h
    rw [small_rows_go] at h
    by_cases hf : (tr.findAllTag "td").any has_ffn_bg = true
    · rw [if_neg (not_not_intro hf)] at h
      rw [List.mem_append] at h
      rcases h with h | h
      · exact ffn_row_rows_props stage last _ 0 r h
      · exact ih last r h
    · rw [if_pos hf] at h
      exact ih _ r h

theorem small_table_rows_props (loc : Located) (r : Row) (h : r ∈ small_table_rows loc) :
    r.Is_Small_ffn_gif = "Y" ∧ r.Camera_Equipment = "" ∧
    endswith_jpg (some r.Thumbnail_File) = true ∧
    r.Sex_Age = find_stage_tag_near_table loc.prev ∧ r.Threat_Status = "" := by
  unfold small_table_rows at h
  dsimp only at h
  by_cases he : (loc.node.descendants.filter (fun d =>
      d.isTag && d.tagName = "td" && has_ffn_bg d)).isEmpty = true
  · rw [if_pos he] at h; simp at h
  · rw [if_neg he] at h
    exact small_rows_go_props _ _ _ r h

theorem parse_small_row_props (doc : Doc) (r : Row) (h : r ∈ parse_small_ffn_tables doc) :
    r.Is_Small_ffn_gif = "Y" ∧ r.Camera_Equipment = "" ∧
    endswith_jpg (some r.Thumbnail_File) = true ∧ r.Threat_Status = "" := by
  rw [parse_small_ffn_tables, List.mem_flatMap] at h
  obtain ⟨loc, -, hr⟩ := h
  obtain ⟨h1, h2, h3, -, h5⟩ := small_table_rows_props loc r hr
  exact ⟨h1, h2, h3, h5⟩

theorem parse_file_doc_row_props (doc : Doc) (r : Row) (h : r ∈ parse_file_doc doc) :
    endswith_jpg (some r.Thumbnail_File) = true ∧
    (r.Is_Small_ffn_gif = "" ∨ r.Is_Small_ffn_gif = "Y") ∧
    (r.Is_Small_ffn_gif = "Y" → r.Camera_Equipment = "") ∧
    r.Threat_Status = find_threat_status doc := by
  rw [parse_file_doc] at h
  rw [List.mem_map] at h
  obtain ⟨r0, hr0, rfl⟩ := h
  rw [List.mem_append] at hr0
  rcases hr0 with hb | hs
  · obtain ⟨h1, h2, -⟩ := parse_big_blocks_row_props doc r0 hb
    refine ⟨h2, Or.inl h1, ?_, rfl⟩
    intro hy
    rw [h1] at hy
    exact absurd hy (by decide)
  · obtain ⟨h1, h2, h3, -⟩ := parse_small_row_props doc r0 hs
    exact ⟨h3, Or.inr h1, fun _ => h2, rfl⟩

theorem parse_file_mem (fi : FileInput) (r : Row) (h : r ∈ parse_file fi) :
    r ∈ parse_file_doc fi.doc := by
  rw [parse_file] at h
  cases hr : (read_html_file fi.filename fi.read).1 with
  | none => rw [hr] at h; simp at h
  | some c => rw [hr] at h; exact h

theorem main_records_mem (listing : List FileInput) (rec : OutRecord)
    (h : rec ∈ main_records listing) :
    ∃ (fi : FileInput) (r : Row), r ∈ parse_file_doc fi.doc ∧
      endswith_jpg (some r.Thumbnail_File) = true ∧
      rec = mk_out_record ((splitext_base fi.filename).toList.drop
        "Fotos_".toList.length).asString r := by
  rw [main_records, List.mem_flatMap] at h
  obtain ⟨fi, -, hrec⟩ := h
  rw [build_records_for_file] at hrec
  dsimp only at hrec
  by_cases hs : leadMatches "Fotos_".toList (splitext_base fi.filename).toList = true
  · rw [if_neg (not_not_intro hs)] at hrec
    rw [List.mem_filterMap] at hrec
    obtain ⟨r, hr, hmk⟩ := hrec
    by_cases hj : endswith_jpg (some r.Thumbnail_File) = true
    · rw [if_neg (not_not_intro hj)] at hmk
      simp only [Option.some.injEq] at hmk
      exact ⟨fi, r, parse_file_mem fi r hr, hj, hmk.symm⟩
    · rw [if_pos hj] at hmk; simp at hmk
  · rw [if_pos hs] at hrec; simp at hrec

/-! ### C1 -/

/-- C1: both parsers only produce rows whose `Thumbnail_File` passes
`endswith_jpg`, and (with `main`'s repeated filter) every record in the final
DataFrame has a `Thumbnail_Filename` ending in `.jpg`. -/
theorem C1_thumbnail_always_jpg :
    (∀ (doc : Doc) (r : Row), r ∈ parse_file_doc doc →
      endswith_jpg (some r.Thumbnail_File) = true) ∧
    (∀ (listing : List FileInput) (rec : OutRecord), rec ∈ main_records listing →
      endswith_jpg (some rec.Thumbnail_Filename) = true) := by
  constructor
  · intro doc r h
    exact (parse_file_doc_row_props doc r h).1
  · intro listing rec h
    obtain ⟨fi, r, -, hj, rfl⟩ := main_records_mem listing rec h
    exact hj

/-- Witness for C1 at a one-block document and a one-file listing. -/
theorem C1_witness :
    (rowBig ∈ parse_file_doc docBig ∧
      endswith_jpg (some rowBig.Thumbnail_File) = true) ∧
    (mk_out_record "Xyz" rowBig ∈ main_records listingBig ∧
      endswith_jpg (some (mk_out_record "Xyz" rowBig).Thumbnail_Filename) = true) :=
  ⟨⟨by decide, C1_thumbnail_always_jpg.1 docBig rowBig (by decide)⟩,
   ⟨by decide, C1_thumbnail_always_jpg.2 listingBig (mk_out_record "Xyz" rowBig) (by decide)⟩⟩

/-! ### C9 -/

/-- The values `find_threat_status` can produce. -/
def ThreatOk (s : String) : Prop := s = "" ∨ s ∈ CATEGORY_LABELS

theorem match_threat_ok (t : String) : ThreatOk (_match_threat_in_text t) := by
  unfold _match_threat_in_text
  cases hf : THREAT_VARIANTS.find? (fun cp => cp.2.any (fun pat => re_search pat t)) with
  | none => exact Or.inl rfl
  | some cp =>
    have hm := List.mem_of_find?_eq_some hf
    simp only [THREAT_VARIANTS, List.mem_cons, List.not_mem_nil, or_false] at hm
    rcases hm with rfl | rfl | rfl | rfl <;> exact Or.inr (by decide)

theorem threat_x_fallback_ok (t : String) : ThreatOk (threat_x_fallback t) := by
  unfold threat_x_fallback
  cases hf : THREAT_VARIANTS.find? (fun cp => cp.2.any (fun pat => re_search_x pat t)) with
  | none => exact Or.inl rfl
  | some cp =>
    have hm := List.mem_of_find?_eq_some hf
    simp only [THREAT_VARIANTS, List.mem_cons, List.not_mem_nil, or_false] at hm
    rcases hm with rfl | rfl | rfl | rfl <;> exact Or.inr (by decide)

theorem status_rows_go_ok (trs : List Node) : ThreatOk (status_rows_go trs) := by
  induction trs with
  | nil => exact Or.inl rfl
  | cons tr trs ih =>
    rw [status_rows_go]
    cases htds : tr.findAllTag "td" with
    | nil => exact ih
    | cons td0 tds1 =>
      dsimp only
      by_cases hmk : ((td0 :: tds1).any (fun td =>
          let t := (lowerChars (compact_text td.getTextSp)).asString
          t = "x" || t = "×")) = true
      · rw [if_neg (not_not_intro hmk)]
        by_cases hl : _match_threat_in_text (compact_text
            ((td0 :: tds1).getLast (List.cons_ne_nil td0 tds1)).getTextSp) ≠ ""
        · rw [if_pos hl]
          exact match_threat_ok _
        · rw [if_neg hl]
          by_cases hl2 : _match_threat_in_text (compact_text tr.getTextSp) ≠ ""
          · rw [if_pos hl2]
            exact match_threat_ok _
          · rw [if_neg hl2]
            exact ih
      · rw [if_pos hmk]
        exact ih

theorem find_status_in_table_ok (table : Node) : ThreatOk (_find_status_in_table table) := by
  unfold _find_status_in_table
  by_cases h : (table.isTag && table.tagName = "table") = true
  · rw [if_neg (not_not_intro h)]
    exact status_rows_go_ok _
  · rw [if_pos h]
    exact Or.inl rfl

theorem threat_sibs_go_ok (sibs : List Node) : ∀ c, ThreatOk (threat_sibs_go sibs c) := by
  induction sibs with
  | nil => intro c; exact Or.inl rfl
  | cons sib rest ih =>
    intro c
    rw [threat_sibs_go]
    by_cases ht : (sib.isTag && sib.tagName = "table") = true
    · rw [if_neg (not_not_intro ht)]
      dsimp only
      by_cases hs : _find_status_in_table sib ≠ ""
      · rw [if_pos hs]
        exact find_status_in_table_ok sib
      · rw [if_neg hs]
        by_cases hc : 4 ≤ c + 1
        · rw [if_pos hc]; exact Or.inl rfl
        · rw [if_neg hc]; exact ih _
    · rw [if_pos ht]
      exact ih _

theorem threat_tables_go_ok (tabs : List Located) : ThreatOk (threat_tables_go tabs) := by
  induction tabs with
  | nil => exact Or.inl rfl
  | cons loc rest ih =>
    rw [threat_tables_go]
    dsimp only
    by_cases hp : strContains ((lowerChars (compact_text loc.node.getTextSp)).asString)
        "globally threatened species" = true
    · rw [if_pos hp]
      by_cases hd : _find_status_in_table loc.node ≠ ""
      · rw [if_pos hd]
        exact find_status_in_table_ok loc.node
      · rw [if_neg hd]
        by_cases hs : threat_sibs_go loc.nxt 0 ≠ ""
        · rw [if_pos hs]
          exact threat_sibs_go_ok loc.nxt 0
        · rw [if_neg hs]
          by_cases hfb : threat_x_fallback loc.node.getTextSp ≠ ""
          · rw [if_pos hfb]
            exact threat_x_fallback_ok _
          · rw [if_neg hfb]
            exact ih
    · rw [if_neg hp]
      exact ih

theorem threat_global_go_ok (tabs : List Located) : ThreatOk (threat_global_go tabs) := by
  induction tabs with
  | nil => exact Or.inl rfl
  | cons loc rest ih =>
    rw [threat_global_go]
    by_cases hs : _find_status_in_table loc.node ≠ ""
    · rw [if_pos hs]
      exact find_status_in_table_ok loc.node
    · rw [if_neg hs]
      exact ih

theorem find_threat_status_ok (doc : Doc) : ThreatOk (find_threat_status doc) := by
  unfold find_threat_status
  dsimp only
  by_cases hf : threat_tables_go (docTables doc) ≠ ""
  · rw [if_pos hf]
    exact threat_tables_go_ok _
  · rw [if_neg hf]
    exact threat_global_go_ok _

/-- C9: one threat label per file, drawn from the fixed set — the file's
`find_threat_status` value is `""` or one of the four `CATEGORY_LABELS`, and
every row `parse_file` produces for the file carries exactly that value. -/
theorem C9_threat_status_uniform (doc : Doc) :
    (find_threat_status doc = "" ∨ find_threat_status doc ∈ CATEGORY_LABELS) ∧
    (∀ r ∈ parse_file_doc doc, r.Threat_Status = find_threat_status doc) := by
  refine ⟨find_threat_status_ok doc, ?_⟩
  intro r h
  exact (parse_file_doc_row_props doc r h).2.2.2

/-- Witness for C9 at a one-block document. -/
theorem C9_witness :
    rowBig ∈ parse_file_doc docBig ∧
    rowBig.Threat_Status = find_threat_status docBig :=
  ⟨by decide, (C9_threat_status_uniform docBig).2 rowBig (by decide)⟩

/-! ### C10 -/

/-- C10: the small-thumbnail flag is two-valued and marks exactly the
`ffn.gif` rows — `parse_big_blocks` rows carry `""`, `parse_small_ffn_tables`
rows carry `"Y"` and an empty `Camera_Equipment`, `parse_file` is exactly the
big segment followed by the small segment, and every final record's `Slide`
is `""` or `"Y"`, with `"Y"` implying an empty `Equipment`. -/
theorem C10_slide_flag_marks_small_rows (doc : Doc) (listing : List FileInput) :
    (∀ r ∈ parse_big_blocks doc, r.Is_Small_ffn_gif = "") ∧
    (∀ r ∈ parse_small_ffn_tables doc, r.Is_Small_ffn_gif = "Y" ∧ r.Camera_Equipment = "") ∧
    parse_file_doc doc =
      (parse_big_blocks doc).map (fun r => { r with Threat_Status := find_threat_status doc }) ++
      (parse_small_ffn_tables doc).map (fun r => { r with Threat_Status := find_threat_status doc }) ∧
    (∀ rec ∈ main_records listing,
      (rec.Slide = "" ∨ rec.Slide = "Y") ∧ (rec.Slide = "Y" → rec.Equipment = "")) := by
  refine ⟨?_, ?_, ?_, ?_⟩
  · intro r h
    exact (parse_big_blocks_row_props doc r h).1
  · intro r h
    obtain ⟨h1, h2, -⟩ := parse_small_row_props doc r h
    exact ⟨h1, h2⟩
  · rw [parse_file_doc]
    rw [List.map_append]
  · intro rec h
    obtain ⟨fi, r, hr, -, rfl⟩ := main_records_mem listing rec h
    obtain ⟨-, h2, h3, -⟩ := parse_file_doc_row_props fi.doc r hr
    exact ⟨h2, h3⟩

/-- Witness for C10 at one big-block document, one small-thumbnail document
and a one-file listing. -/
theorem C10_witness :
    (rowBig ∈ parse_big_blocks docBig ∧ rowBig.Is_Small_ffn_gif = "") ∧
    (rowSmall ∈ parse_small_ffn_tables docSmall ∧
      rowSmall.Is_Small_ffn_gif = "Y" ∧ rowSmall.Camera_Equipment = "") ∧
    (mk_out_record "Xyz" rowBig ∈ main_records listingBig ∧
      ((mk_out_record "Xyz" rowBig).Slide = "" ∨ (mk_out_record "Xyz" rowBig).Slide = "Y") ∧
      ((mk_out_record "Xyz" rowBig).Slide = "Y" → (mk_out_record "Xyz" rowBig).Equipment = "")) :=
  ⟨⟨by decide, (C10_slide_flag_marks_small_rows docBig []).1 rowBig (by decide)⟩,
   ⟨by decide, (C10_slide_flag_marks_small_rows docSmall []).2.1 rowSmall (by decide)⟩,
   ⟨by decide, (C10_slide_flag_marks_small_rows [] listingBig).2.2.2
      (mk_out_record "Xyz" rowBig) (by decide)⟩⟩

/-! ### C2 -/

/-- The sibling tables the lookback loop iterates over, nearest first. -/
def sibling_tables (l : List Node) : List Node :=
  l.filter (fun n => n.isTag && n.tagName = "table")

theorem stage_go_sound (maxlb : Nat) :
    ∀ (l : List Node) (count : Nat), count < maxlb →
      stage_go maxlb l count ≠ "" →
      ∃ j t, (sibling_tables l).get? j = some t ∧ count + j + 1 ≤ maxlb ∧
        _looks_like_stage_table t = true ∧
        stage_go maxlb l count = compact_text t.getTextSp ∧
        (∀ k u, k ≤ j → (sibling_tables l).get? k = some u →
          is_big_image_table u = false) := by
  intro l
  induction l with
  | nil =>
    intro count hc h
    rw [stage_go] at h
    exact absurd rfl h
  | cons sib rest ih =>
    intro count hc h
    rw [stage_go] at h
    by_cases ht : (sib.isTag && sib.tagName = "table") = true
    · have htabs : sibling_tables (sib :: rest) = sib :: sibling_tables rest := by
        simp [sibling_tables, List.filter_cons, ht]
      rw [if_neg (not_not_intro ht)] at h
      by_cases hbig : is_big_image_table sib = true
      · rw [if_pos hbig] at h
        exact absurd rfl h
      · rw [if_neg hbig] at h
        by_cases hst : _looks_like_stage_table sib = true
        · rw [if_pos hst] at h
          refine ⟨0, sib, ?_, by omega, hst, ?_, ?_⟩
          · rw [htabs]; rfl
          · rw [stage_go, if_neg (not_not_intro ht), if_neg hbig, if_pos hst]
          · intro k u hk hku
            have hk0 : k = 0 := Nat.le_zero.mp hk
            subst hk0
            rw [htabs] at hku
            simp only [List.get?] at hku
            obtain rfl : sib = u := by injection hku
            exact Bool.not_eq_true _ |>.mp hbig
        · rw [if_neg hst] at h
          by_cases hlim : maxlb ≤ count + 1
          · rw [if_pos hlim] at h
            exact absurd rfl h
          · rw [if_neg hlim] at h
            obtain ⟨j, t, hj, hle, hstage, heq, hnb⟩ := ih (count + 1) (by omega) h
            refine ⟨j + 1, t, ?_, by omega, hstage, ?_, ?_⟩
            · rw [htabs]
              simpa using hj
            · rw [stage_go, if_neg (not_not_intro ht), if_neg hbig, if_neg hst, if_neg hlim]
              exact heq
            · intro k u hk hku
              rw [htabs] at hku
              cases k with
              | zero =>
                simp only [List.get?] at hku
                obtain rfl : sib = u := by injection hku
                exact Bool.not_eq_true _ |>.mp hbig
              | succ k =>
                exact hnb k u (by omega) (by simpa using hku)
    · rw [if_pos ht] at h
      have htabs : sibling_tables (sib :: rest) = sibling_tables rest := by
        simp [sibling_tables, List.filter_cons, ht]
      obtain ⟨j, t, hj, hle, hstage, heq, hnb⟩ := ih count hc h
      refine ⟨j, t, ?_, hle, hstage, ?_, ?_⟩
      · rw [htabs]; exact hj
      · rw [stage_go, if_pos ht]; exact heq
      · intro k u hk hku
        rw [htabs] at hku
        exact hnb k u hk hku

/-- C2: when the stage-label lookback returns a non-empty text, that text is
the compact text of one of the first 3 previous sibling tables, that table
looks like a stage table, and neither it nor any nearer previous sibling
table is a big image block — so the lookback never reaches past a big image
block and examines at most 3 tables. -/
theorem C2_stage_lookback_bounded (prevSibs : List Node)
    (h : find_stage_tag_near_table prevSibs ≠ "") :
    ∃ j t, (sibling_tables prevSibs).get? j = some t ∧ j < 3 ∧
      _looks_like_stage_table t = true ∧
      find_stage_tag_near_table prevSibs = compact_text t.getTextSp ∧
      (∀ k u, k ≤ j → (sibling_tables prevSibs).get? k = some u →
        is_big_image_table u = false) := by
  obtain ⟨j, t, hj, hle, hst, heq, hnb⟩ := stage_go_sound 3 prevSibs 0 (by omega) h
  exact ⟨j, t, hj, by omega, hst, heq, hnb⟩

/-- Witness for C2 at a single stage table. -/
theorem C2_witness :
    find_stage_tag_near_table stageSibs ≠ "" ∧
    ∃ j t, (sibling_tables stageSibs).get? j = some t ∧ j < 3 ∧
      _looks_like_stage_table t = true ∧
      find_stage_tag_near_table stageSibs = compact_text t.getTextSp ∧
      (∀ k u, k ≤ j → (sibling_tables stageSibs).get? k = some u →
        is_big_image_table u = false) :=
  ⟨by decide, C2_stage_lookback_bounded stageSibs (by decide)⟩

/-! ### C5 -/

theorem excel_grid_rows (headers : List String) (data : List (List String))
    (row : List String) (h : row ∈ excel_grid headers data) :
    row = [] ∨ ∃ tl, row = "" :: tl := by
  rw [excel_grid, insert_rows_1, insert_cols_1, to_excel_grid] at h
  rcases List.mem_cons.mp h with rfl | h
  · exact Or.inl rfl
  · rcases List.mem_map.mp h with ⟨x, -, rfl⟩
    exact Or.inr ⟨x, rfl⟩

/-- C5: with at least one record, `main` writes exactly one workbook, at the
path built from the current directory's name, whose grid is the header/data
block shifted one row down and one column right: row 1 is empty, row 2 is
the header row behind a blank first cell, every row from row 3 on is a
record's cells behind a blank first cell, column A is blank everywhere, and
the first record sits in row 3. -/
theorem C5_output_layout (cwd : String) (listing : List FileInput)
    (h : main_records listing ≠ []) :
    ∃ grid, (main cwd listing).output =
      some (pyJoin cwd (get_current_folder_name cwd ++ "_Image_Listing.xlsx"), grid) ∧
      grid = excel_grid HEADER_COLUMNS ((main_records listing).map record_to_cells) ∧
      grid.get? 0 = some [] ∧
      grid.get? 1 = some ("" :: HEADER_COLUMNS) ∧
      (∀ i, grid.get? (i + 2) =
        ((main_records listing).get? i).map (fun rec => "" :: record_to_cells rec)) ∧
      (∀ c, cellAt grid 1 c = "") ∧
      (∀ r, cellAt grid r 1 = "") ∧
      ∃ rec recs, main_records listing = rec :: recs ∧
        grid.get? 2 = some ("" :: record_to_cells rec) := by
  have hfil : (listing.filter (fun fi => matches_fotos_glob fi.filename)).isEmpty = false := by
    cases hemp : (listing.filter (fun fi => matches_fotos_glob fi.filename)).isEmpty with
    | false => rfl
    | true =>
      exfalso
      apply h
      rw [main_records, List.isEmpty_iff.mp hemp]
      rfl
  rw [main]
  dsimp only
  rw [if_neg (by simp [hfil]), if_neg (by simp [List.isEmpty_iff, h])]
  refine ⟨_, rfl, rfl, rfl, rfl, ?_, ?_, ?_, ?_⟩
  · intro i
    show ((((main_records listing).map record_to_cells).map (fun row => "" :: row)).get? i) = _
    simp only [List.get?_eq_getElem?, List.getElem?_map, Option.map_map]
    rfl
  · intro c
    rfl
  · intro r
    unfold cellAt
    rcases hrow : (excel_grid HEADER_COLUMNS
        ((main_records listing).map record_to_cells)).get? (r - 1) with - | row
    · rfl
    · rcases excel_grid_rows _ _ row (List.get?_mem hrow) with rfl | ⟨tl, rfl⟩
      · rfl
      · rfl
  · cases hrec : main_records listing with
    | nil => exact absurd hrec h
    | cons rec recs =>
      refine ⟨rec, recs, rfl, ?_⟩
      simp [excel_grid, insert_rows_1, insert_cols_1, to_excel_grid, hrec]

/-- Witness for C5 at a one-file listing. -/
theorem C5_witness :
    main_records listingBig ≠ [] ∧
    (∃ grid, (main "/h/Aves" listingBig).output =
      some (pyJoin "/h/Aves" (get_current_folder_name "/h/Aves" ++ "_Image_Listing.xlsx"), grid) ∧
      grid = excel_grid HEADER_COLUMNS ((main_records listingBig).map record_to_cells) ∧
      grid.get? 0 = some [] ∧
      grid.get? 1 = some ("" :: HEADER_COLUMNS) ∧
      (∀ i, grid.get? (i + 2) =
        ((main_records listingBig).get? i).map (fun rec => "" :: record_to_cells rec)) ∧
      (∀ c, cellAt grid 1 c = "") ∧
      (∀ r, cellAt grid r 1 = "") ∧
      ∃ rec recs, main_records listingBig = rec :: recs ∧
        grid.get? 2 = some ("" :: record_to_cells rec)) :=
  ⟨by decide, C5_output_layout "/h/Aves" listingBig (by decide)⟩

/-! ### C6 -/

/-- C6: with no `Fotos_*.html` files in the listing `main` prints the
no-matching-files message and returns 0 with no workbook; with matching files
but no extracted records it prints the no-records message and returns 0 with
no workbook. -/
theorem C6_clean_exit_on_nothing (cwd : String) (listing : List FileInput) :
    ((listing.filter (fun fi => matches_fotos_glob fi.filename)).isEmpty = true →
      main cwd listing =
        { exitCode := 0,
          messages := ["No matching HTML files (Fotos_*.html) found in current folder."],
          output := none }) ∧
    ((listing.filter (fun fi => matches_fotos_glob fi.filename)).isEmpty = false →
      main_records listing = [] →
      (main cwd listing).exitCode = 0 ∧ (main cwd listing).output = none ∧
      "No image records found." ∈ (main cwd listing).messages) := by
  constructor
  · intro hemp
    rw [main]
    dsimp only
    rw [if_pos hemp]
  · intro hemp hrec
    rw [main]
    dsimp only
    rw [if_neg (by simp [hemp]), if_pos (by simp [hrec])]
    refine ⟨rfl, rfl, ?_⟩
    simp

/-- A listing with one matching file whose page holds no image tables. -/
def listingNoRecords : List FileInput :=
  [⟨"Fotos_Empty.html", ⟨.ok "x", .ok "x"⟩, docPlain⟩]

/-- Witness for C6: the empty listing and a listing yielding no records. -/
theorem C6_witness :
    (([] : List FileInput).filter (fun fi => matches_fotos_glob fi.filename)).isEmpty = true ∧
    main "/d" [] =
      { exitCode := 0,
        messages := ["No matching HTML files (Fotos_*.html) found in current folder."],
        output := none } ∧
    (listingNoRecords.filter (fun fi => matches_fotos_glob fi.filename)).isEmpty = false ∧
    main_records listingNoRecords = [] ∧
    ((main "/d" listingNoRecords).exitCode = 0 ∧ (main "/d" listingNoRecords).output = none ∧
      "No image records found." ∈ (main "/d" listingNoRecords).messages) :=
  ⟨by decide,
   (C6_clean_exit_on_nothing "/d" []).1 (by decide),
   by decide,
   by decide,
   (C6_clean_exit_on_nothing "/d" listingNoRecords).2 (by decide) (by decide)⟩

/-! ### C7 -/

theorem build_records_empty_of_read_fail (fi : FileInput)
    (h : (read_html_file fi.filename fi.read).1 = none) :
    build_records_for_file fi = [] := by
  rw [build_records_for_file]
  dsimp only
  have hp : parse_file fi = [] := by rw [parse_file, h]
  by_cases hs : leadMatches "Fotos_".toList (splitext_base fi.filename).toList = true
  · rw [if_neg (not_not_intro hs), hp]
    rfl
  · rw [if_pos hs]

theorem flatMap_insertFile (x : FileInput) (hx : build_records_for_file x = [])
    (s : List FileInput) :
    (insertFile x s).flatMap build_records_for_file = s.flatMap build_records_for_file := by
  induction s with
  | nil => simp [insertFile, hx]
  | cons y ys ih =>
    rw [insertFile]
    by_cases hlt : strLtChars y.filename.toList x.filename.toList = true
    · rw [if_pos hlt, List.flatMap_cons, List.flatMap_cons, ih]
    · rw [if_neg hlt, List.flatMap_cons, hx]
      rfl

theorem main_records_skip_failing (fi : FileInput) (listing : List FileInput)
    (h : (read_html_file fi.filename fi.read).1 = none) :
    main_records (fi :: listing) = main_records listing := by
  rw [main_records, main_records, List.filter_cons]
  by_cases hg : matches_fotos_glob fi.filename = true
  · rw [if_pos (by simp [hg]), sortFiles]
    exact flatMap_insertFile fi (build_records_empty_of_read_fail fi h) _
  · rw [if_neg (by simp [hg])]

/-- C7: `read_html_file` returns the UTF-8 content when that read succeeds,
falls back to the latin-1 content exactly on a `UnicodeDecodeError`, and on
any other failure (or a failing fallback) prints `Error reading …` and
returns `none`; a file whose read failed parses to no records, and dropping
such a file from the listing leaves the collected records of the remaining
files unchanged. -/
theorem C7_read_fallback_and_per_file_skip :
    (∀ (path c : String) (l : Except PyErr String),
      read_html_file path ⟨.ok c, l⟩ = (some c, [])) ∧
    (∀ path c : String,
      read_html_file path ⟨.error .unicodeDecodeError, .ok c⟩ = (some c, [])) ∧
    (∀ (path : String) (e : PyErr),
      read_html_file path ⟨.error .unicodeDecodeError, .error e⟩ =
        (none, ["Error reading " ++ path])) ∧
    (∀ (path : String) (l : Except PyErr String),
      read_html_file path ⟨.error .otherError, l⟩ = (none, ["Error reading " ++ path])) ∧
    (∀ fi : FileInput, (read_html_file fi.filename fi.read).1 = none →
      parse_file fi = []) ∧
    (∀ (fi : FileInput) (listing : List FileInput),
      (read_html_file fi.filename fi.read).1 = none →
      main_records (fi :: listing) = main_records listing) := by
  refine ⟨fun _ _ _ => rfl, fun _ _ => rfl, fun _ _ => rfl, fun _ _ => rfl, ?_, ?_⟩
  · intro fi h
    rw [parse_file, h]
  · intro fi listing h
    exact main_records_skip_failing fi listing h

/-- A matching file whose UTF-8 and latin-1 reads both fail. -/
def fiBad : FileInput :=
  ⟨"Fotos_Bad.html", ⟨.error .unicodeDecodeError, .error .otherError⟩, docBig⟩

/-- Witness for C7: the latin-1 fallback, and a doubly-failing file that is
skipped without disturbing the other file's records. -/
theorem C7_witness :
    read_html_file "p" ⟨.error .unicodeDecodeError, .ok "c"⟩ = (some "c", []) ∧
    (read_html_file fiBad.filename fiBad.read).1 = none ∧
    parse_file fiBad = [] ∧
    main_records (fiBad :: listingBig) = main_records listingBig :=
  ⟨C7_read_fallback_and_per_file_skip.2.1 "p" "c",
   by decide,
   C7_read_fallback_and_per_file_skip.2.2.2.2.1 fiBad (by decide),
   C7_read_fallback_and_per_file_skip.2.2.2.2.2 fiBad listingBig (by decide)⟩

end CollectImageListing
